import Mathlib

/-!
# Price-protection claim pipeline: verified model

A shallow embedding of the core logic of the price-protection bot backend
(claim creation, purchase extraction, card auto-provisioning, price
monitoring, and the automated claim-filing cascade), together with theorems
settling the spec's testable properties against the code.

Conventions used throughout:

* Money values are rationals (`ℚ`); JavaScript numbers are used by the source
  only for currency arithmetic and comparisons, which ℚ models exactly.
* Timestamps are integers (`Int`); only ordering and day-offset addition are
  used by the source.
* Nullable JavaScript/Prisma values are `Option` values.  JavaScript
  truthiness on nullable numbers (`x || y`, `!x`) treats both `null` and `0`
  as falsy; the helpers `jsOrQ` / `jsOrOptQ` / `jsNum` reproduce this.
-/

namespace PriceBot

/-- JS `x || y` for a nullable number `x` and a plain number `y`:
`null` and `0` are falsy. -/
def jsOrQ (x : Option ℚ) (y : ℚ) : ℚ :=
  match x with
  | none => y
  | some v => if v = 0 then y else v

/-- JS `x || y` for two nullable numbers: `null` and `0` are falsy. -/
def jsOrOptQ (x y : Option ℚ) : Option ℚ :=
  match x with
  | none => y
  | some v => if v = 0 then y else some v

/-- JS arithmetic coercion of a nullable number: `null` coerces to `0`
(e.g. `100 - null === 100`). -/
def jsNum (x : Option ℚ) : ℚ := x.getD 0

/-! ## Card utilities (`backend/src/utils/cardUtils.js`)

`maskCardNumber` strips non-digits, then masks all but the first six and the
last four digits — unless fewer than ten digits remain, in which case the
digit string is returned as is. -/

/-- `maskCardNumber(cardNumber)`:
`clean = cardNumber.replace(/\D/g, '')`; if `clean.length < 10` return
`clean`; else `firstSix + '*'.repeat(clean.length - 10) + lastFour`. -/
def maskCardNumber (cardNumber : String) : String :=
  let clean := cardNumber.toList.filter Char.isDigit
  if clean.length < 10 then
    String.mk clean
  else
    let firstSix := clean.take 6
    let lastFour := clean.drop (clean.length - 4)
    let middleLength := clean.length - 10
    String.mk (firstSix ++ List.replicate middleLength '*' ++ lastFour)

end PriceBot

namespace PriceBot

/-- C10: `maskCardNumber` first discards non-digit characters; with fewer
than ten digits left it returns the digit string unchanged and completely
unstarred, and with at least ten digits it returns the first six digits, one
star per remaining middle digit, then the last four digits. -/
theorem maskCardNumber_shape (s : String) :
    ((s.toList.filter Char.isDigit |>.length) < 10 →
      maskCardNumber s = String.mk (s.toList.filter Char.isDigit) ∧
      '*' ∉ (maskCardNumber s).toList) ∧
    (10 ≤ (s.toList.filter Char.isDigit |>.length) →
      maskCardNumber s =
        String.mk ((s.toList.filter Char.isDigit).take 6 ++
          List.replicate ((s.toList.filter Char.isDigit).length - 10) '*' ++
          (s.toList.filter Char.isDigit).drop
            ((s.toList.filter Char.isDigit).length - 4))) := by
  constructor
  · intro h
    have hmask : maskCardNumber s = String.mk (s.toList.filter Char.isDigit) := by
      simp only [maskCardNumber]
      rw [if_pos h]
    refine ⟨hmask, ?_⟩
    rw [hmask]
    intro hmem
    have : ('*' : Char).isDigit := List.of_mem_filter hmem
    simp [Char.isDigit] at this
  · intro h
    simp only [maskCardNumber]
    rw [if_neg (Nat.not_lt.mpr h)]

/-- Witness for `maskCardNumber_shape`, discharging each branch hypothesis at
concrete inputs: a 4-digit string stays unmasked, a 16-digit card is starred
in the middle. -/
theorem maskCardNumber_shape_witness :
    (maskCardNumber "411-1" = String.mk ("411-1".toList.filter Char.isDigit) ∧
      '*' ∉ (maskCardNumber "411-1").toList) ∧
    maskCardNumber "4111 2222 3333 4444" =
      String.mk ((("4111 2222 3333 4444").toList.filter Char.isDigit).take 6 ++
        List.replicate ((("4111 2222 3333 4444").toList.filter Char.isDigit).length - 10) '*' ++
        (("4111 2222 3333 4444").toList.filter Char.isDigit).drop
          ((("4111 2222 3333 4444").toList.filter Char.isDigit).length - 4)) :=
  ⟨(maskCardNumber_shape "411-1").1 (by decide),
   (maskCardNumber_shape "4111 2222 3333 4444").2 (by decide)⟩

end PriceBot

deriving instance DecidableEq for Except

namespace PriceBot

/-! ## Data model for claims (routes/claims.js and services/autoClaimService.js)

`Claim.status` values are the strings of the Prisma enum; a claim is *active*
when its status is outside `{DENIED, EXPIRED}`, the filter both guarded
creation sites use (`status: { notIn: ['DENIED', 'EXPIRED'] }`). -/

inductive ClaimStatus
  | DRAFT | READY_TO_FILE | EMAIL_SENT | FILED | PENDING | PENDING_REVIEW
  | APPROVED | DENIED | ADDITIONAL_INFO_NEEDED | MONEY_RECEIVED | EXPIRED
  deriving DecidableEq, Repr

/-- `status: { notIn: ['DENIED', 'EXPIRED'] }` — the "active claim" filter. -/
def ClaimStatus.isActive : ClaimStatus → Bool
  | .DENIED => false
  | .EXPIRED => false
  | _ => true

inductive PurchaseStatus
  | MONITORING | PRICE_DROP_DETECTED | CLAIM_ELIGIBLE | CLAIM_FILED
  | CLAIM_APPROVED | CLAIM_DENIED | EXPIRED
  deriving DecidableEq, Repr

/-- A `creditCard` row as used by the claim-creation code paths. -/
structure CreditCard where
  id : Nat
  maxClaimAmount : ℚ
  deriving DecidableEq, Repr

/-- A `purchase` row, restricted to the fields the claim-creation code reads.
`lowestPrice`, `currentPrice`, `protectionEnds` and `creditCardId` are
nullable in the schema. -/
structure Purchase where
  id : Nat
  userId : Nat
  productName : String
  retailer : String
  purchasePrice : ℚ
  currentPrice : Option ℚ
  lowestPrice : Option ℚ
  lowestPriceDate : Option Int
  purchaseDate : Int
  retailerOrderId : Option String
  category : Option String
  protectionEnds : Option Int
  creditCardId : Option Nat
  productUrl : Option String
  sourceType : String
  sourceEmailId : Option String
  status : PurchaseStatus
  deriving DecidableEq, Repr

/-- A `claim` row, restricted to the fields written at creation. -/
structure Claim where
  id : Nat
  userId : Nat
  purchaseId : Nat
  creditCardId : Nat
  originalPrice : ℚ
  newPrice : Option ℚ
  priceDifference : ℚ
  status : ClaimStatus
  deriving DecidableEq, Repr

/-- The active claims recorded for a purchase:
`prisma.claim.findFirst({ where: { purchaseId, status: { notIn: ['DENIED',
'EXPIRED'] } } })` returns the first of these. -/
def activeClaimsFor (claims : List Claim) (purchaseId : Nat) : List Claim :=
  claims.filter (fun c => c.purchaseId == purchaseId && c.status.isActive)

/-- `purchase.protectionEnds && purchase.protectionEnds < new Date()`:
a `null` end date is falsy, a present one is compared to `now`. -/
def protectionExpired (protectionEnds : Option Int) (now : Int) : Bool :=
  match protectionEnds with
  | none => false
  | some t => t < now

/-- `POST /claims` (routes/claims.js): given the fetched purchase (with its
joined `creditCard`) and the claim table, runs the eligibility checks in
source order and either rejects with the route's error message or appends the
new claim.  `now` is `new Date()` and `freshId` the id Prisma assigns. -/
def createClaimRoute (purchase : Purchase) (creditCard : CreditCard)
    (claims : List Claim) (now : Int) (freshId : Nat) :
    Except String (Claim × List Claim) :=
  match purchase.creditCardId with
  | none => .error "Purchase must be linked to a credit card"
  | some _ =>
    if ¬ (purchase.status = .PRICE_DROP_DETECTED ∨ purchase.status = .CLAIM_ELIGIBLE) then
      .error "Purchase is not eligible for a claim"
    else if protectionExpired purchase.protectionEnds now then
      .error "Price protection period has expired"
    else
      -- `const priceDifference = purchase.purchasePrice - purchase.lowestPrice`
      let priceDifference := purchase.purchasePrice - jsNum purchase.lowestPrice
      if priceDifference ≤ 0 then
        .error "No price drop detected"
      else if (activeClaimsFor claims purchase.id) ≠ [] then
        .error "A claim already exists for this purchase"
      else
        let claim : Claim :=
          { id := freshId
            userId := purchase.userId
            purchaseId := purchase.id
            creditCardId := creditCard.id
            originalPrice := purchase.purchasePrice
            newPrice := purchase.lowestPrice
            priceDifference := min priceDifference creditCard.maxClaimAmount
            status := .DRAFT }
        .ok (claim, claims ++ [claim])

/-- `autoClaimService.createAndFileClaim(purchaseId, creditCardId)` (claim
creation part): computes
`priceDifference = purchasePrice - (lowestPrice || currentPrice)`, rejects a
non-positive difference, and otherwise appends a DRAFT claim — with **no**
existing-claim check. -/
def createAndFileClaim (purchase : Purchase) (creditCard : CreditCard)
    (claims : List Claim) (freshId : Nat) :
    Except String (Claim × List Claim) :=
  let newPrice := jsOrOptQ purchase.lowestPrice purchase.currentPrice
  let priceDifference := purchase.purchasePrice - jsNum newPrice
  if priceDifference ≤ 0 then
    .error "No price drop to claim"
  else
    let claim : Claim :=
      { id := freshId
        userId := purchase.userId
        purchaseId := purchase.id
        creditCardId := creditCard.id
        originalPrice := purchase.purchasePrice
        newPrice := newPrice
        priceDifference := min priceDifference creditCard.maxClaimAmount
        status := .DRAFT }
    .ok (claim, claims ++ [claim])

/-- A purchase at 100 with lowest observed price 80, linked to card 2. -/
def samplePurchase : Purchase :=
  { id := 1, userId := 7, productName := "Sample Widget", retailer := "Amazon"
    purchasePrice := 100, currentPrice := some 80
    lowestPrice := some 80, lowestPriceDate := some 0, purchaseDate := 0
    retailerOrderId := none, category := none
    protectionEnds := some 1000, creditCardId := some 2
    productUrl := some "https://www.example.com/item"
    sourceType := "MANUAL", sourceEmailId := none, status := .CLAIM_ELIGIBLE }

def sampleCard : CreditCard := { id := 2, maxClaimAmount := 500 }

/-- An active (DRAFT) claim already on file for `samplePurchase`. -/
def sampleExistingClaim : Claim :=
  { id := 3, userId := 7, purchaseId := 1, creditCardId := 2
    originalPrice := 100, newPrice := some 80, priceDifference := 20
    status := .DRAFT }

/-- C1: the claims POST route refuses to create a claim while an active
(non-DENIED, non-EXPIRED) claim exists for the purchase, but
`autoClaimService.createAndFileClaim` performs no such check: at the same
database state it succeeds and leaves **two** active claims for purchase 1,
violating the single-active-claim invariant. -/
theorem createAndFileClaim_violates_single_active_claim :
    createClaimRoute samplePurchase sampleCard [sampleExistingClaim] 0 4 =
      .error "A claim already exists for this purchase" ∧
    ∃ c, createAndFileClaim samplePurchase sampleCard [sampleExistingClaim] 4 =
        .ok (c, [sampleExistingClaim, c]) ∧
      (activeClaimsFor [sampleExistingClaim, c] 1).length = 2 := by
  refine ⟨?_, ?_⟩
  · norm_num [createClaimRoute, samplePurchase, sampleCard, sampleExistingClaim,
      protectionExpired, activeClaimsFor, ClaimStatus.isActive, jsNum]
  · refine ⟨{ id := 4, userId := 7, purchaseId := 1, creditCardId := 2,
              originalPrice := 100, newPrice := some 80, priceDifference := 20,
              status := .DRAFT }, ?_, by decide⟩
    norm_num [createAndFileClaim, samplePurchase, sampleCard, sampleExistingClaim,
      jsNum, jsOrOptQ]

end PriceBot

namespace PriceBot

/-- The claim row both creation paths build at `samplePurchase`/`sampleCard`
with an empty claim table and fresh id 9. -/
def sampleNewClaim : Claim :=
  { id := 9, userId := 7, purchaseId := 1, creditCardId := 2
    originalPrice := 100, newPrice := some 80, priceDifference := 20
    status := .DRAFT }

/-- C2: every claim created by the POST route or by
`autoClaimService.createAndFileClaim` for a purchase whose recorded lowest
price is `l` (non-null; and non-zero, so the `lowestPrice || currentPrice`
fallback picks it) stores `newPrice = l` and
`priceDifference = min (purchasePrice - l) maxClaimAmount`, and creation is
rejected unless `purchasePrice - l` is positive. -/
theorem claim_priceDifference_capped (purchase : Purchase) (creditCard : CreditCard)
    (claims : List Claim) (now : Int) (freshId : Nat) (l : ℚ)
    (hl : purchase.lowestPrice = some l) (hl0 : l ≠ 0) :
    (∀ c rest, createClaimRoute purchase creditCard claims now freshId = .ok (c, rest) →
      c.newPrice = some l ∧
      c.priceDifference = min (purchase.purchasePrice - l) creditCard.maxClaimAmount ∧
      0 < purchase.purchasePrice - l) ∧
    (∀ c rest, createAndFileClaim purchase creditCard claims freshId = .ok (c, rest) →
      c.newPrice = some l ∧
      c.priceDifference = min (purchase.purchasePrice - l) creditCard.maxClaimAmount ∧
      0 < purchase.purchasePrice - l) := by
  constructor
  · intro c rest h
    simp only [createClaimRoute] at h
    rcases hcc : purchase.creditCardId with _ | ccid <;> rw [hcc] at h
    · exact absurd h (by simp)
    · rw [hl] at h
      simp only [jsNum, Option.getD_some] at h
      split_ifs at h with h1 h2 h3 h4
      simp only [Except.ok.injEq, Prod.mk.injEq] at h
      obtain ⟨hc, -⟩ := h
      subst hc
      exact ⟨rfl, rfl, lt_of_not_ge fun hge => h3 (by linarith)⟩
  · intro c rest h
    simp only [createAndFileClaim] at h
    rw [hl] at h
    simp only [jsOrOptQ, if_neg hl0, jsNum, Option.getD_some] at h
    split_ifs at h with h1
    simp only [Except.ok.injEq, Prod.mk.injEq] at h
    obtain ⟨hc, -⟩ := h
    subst hc
    exact ⟨rfl, rfl, lt_of_not_ge fun hge => h1 (by linarith)⟩

/-- Witness for `claim_priceDifference_capped`: the POST route at
`samplePurchase` (lowest price 80) with an empty claim table creates
`sampleNewClaim`, whose stored fields satisfy the cap property. -/
theorem claim_priceDifference_capped_witness :
    sampleNewClaim.newPrice = some 80 ∧
    sampleNewClaim.priceDifference =
      min (samplePurchase.purchasePrice - 80) sampleCard.maxClaimAmount ∧
    0 < samplePurchase.purchasePrice - 80 :=
  (claim_priceDifference_capped samplePurchase sampleCard [] 0 9 80 rfl
      (by norm_num)).1 sampleNewClaim [sampleNewClaim]
    (by norm_num [createClaimRoute, samplePurchase, sampleCard, sampleNewClaim,
          protectionExpired, activeClaimsFor, jsNum])

end PriceBot

namespace PriceBot

/-! ## Price monitor (`services/priceMonitor.js`, `checkPriceForPurchase`)

One check of a tracked purchase: the scraped price (an external input,
`none` when no price could be fetched or parsed) is appended to the
purchase's `priceHistory`, `currentPrice` is updated, `lowestPrice` /
`lowestPriceDate` are updated when the guard
`!purchase.lowestPrice || currentPrice < purchase.lowestPrice` holds, and a
qualifying drop (`priceDrop > 0 && priceDrop >= (user.priceDropThreshold ||
5)`) sets the status and creates one `PRICE_DROP` notification. -/

/-- `purchase.protectionEnds && purchase.protectionEnds > new Date()`. -/
def withinProtection (protectionEnds : Option Int) (now : Int) : Bool :=
  match protectionEnds with
  | none => false
  | some t => decide (now < t)

/-- JS truthiness check `!x` on a nullable number: `null` and `0` are falsy. -/
def jsFalsyQ (x : Option ℚ) : Bool :=
  match x with
  | none => true
  | some v => decide (v = 0)

/-- The slice of database state `checkPriceForPurchase` touches: the purchase
row, its append-only `priceHistory` prices, and the number of `PRICE_DROP`
notifications created for it. -/
structure MonitorState where
  purchase : Purchase
  priceHistory : List ℚ
  notificationCount : Nat
  deriving DecidableEq, Repr

/-- One invocation's external inputs: the price `scrapePrice` returned
(`none` = "Could not fetch price") and the current time. -/
structure PriceCheckInput where
  fetched : Option ℚ
  now : Int
  deriving DecidableEq, Repr

/-- `checkPriceForPurchase` (state-mutating part), with the user's
`priceDropThreshold` passed in.  Returns the new state and whether the check
succeeded. -/
def checkPriceForPurchase (userThreshold : Option ℚ) (st : MonitorState)
    (inp : PriceCheckInput) : MonitorState × Bool :=
  match st.purchase.productUrl with
  | none => (st, false)
  | some _ =>
    match inp.fetched with
    | none => (st, false)
    | some currentPrice =>
      let priceHistory := st.priceHistory ++ [currentPrice]
      let priceDrop := st.purchase.purchasePrice - currentPrice
      let updateLowest : Bool :=
        jsFalsyQ st.purchase.lowestPrice ||
          decide (currentPrice < jsNum st.purchase.lowestPrice)
      let isWithin := withinProtection st.purchase.protectionEnds inp.now
      let threshold := jsOrQ userThreshold 5
      let qualifies : Bool := decide (0 < priceDrop) && decide (threshold ≤ priceDrop)
      let purchase' : Purchase :=
        { st.purchase with
          currentPrice := some currentPrice
          lowestPrice :=
            if updateLowest then some currentPrice else st.purchase.lowestPrice
          lowestPriceDate :=
            if updateLowest then some inp.now else st.purchase.lowestPriceDate
          status :=
            if qualifies then
              (if isWithin then .CLAIM_ELIGIBLE else .PRICE_DROP_DETECTED)
            else st.purchase.status }
      ({ purchase := purchase'
         priceHistory := priceHistory
         notificationCount := st.notificationCount + (if qualifies then 1 else 0) },
       true)

/-- Iterated price checks (the periodic sweep re-invoking
`checkPriceForPurchase` on the same purchase). -/
def runChecks (userThreshold : Option ℚ) (st : MonitorState)
    (inputs : List PriceCheckInput) : MonitorState :=
  inputs.foldl (fun s i => (checkPriceForPurchase userThreshold s i).1) st

/-- The minimum of a list of prices (`none` for an empty list). -/
def minQ : List ℚ → Option ℚ
  | [] => none
  | q :: qs =>
    match minQ qs with
    | none => some q
    | some m => some (min q m)

theorem minQ_append_single (l : List ℚ) (c : ℚ) :
    minQ (l ++ [c]) = some ((minQ l).elim c (fun m => min m c)) := by
  induction l with
  | nil => simp [minQ]
  | cons q qs ih =>
    cases hm : minQ qs with
    | none => simp [minQ, ih, hm]
    | some m => simp [minQ, ih, hm, min_assoc]

theorem minQ_pos (l : List ℚ) (hpos : ∀ q ∈ l, 0 < q) (m : ℚ)
    (hm : minQ l = some m) : 0 < m := by
  induction l generalizing m with
  | nil => simp [minQ] at hm
  | cons q qs ih =>
    simp only [minQ] at hm
    cases hq : minQ qs with
    | none =>
      rw [hq] at hm
      cases hm
      exact hpos q (by simp)
    | some m' =>
      rw [hq] at hm
      cases hm
      exact lt_min (hpos q (by simp)) (ih (fun x hx => hpos x (by simp [hx])) m' hq)

/-- The monitor invariant: the stored `lowestPrice` is the minimum of all
recorded price observations, all of which are positive. -/
def MonitorInv (st : MonitorState) : Prop :=
  st.purchase.lowestPrice = minQ st.priceHistory ∧ ∀ q ∈ st.priceHistory, 0 < q

theorem checkPrice_preserves_inv (userThreshold : Option ℚ) (st : MonitorState)
    (inp : PriceCheckInput) (hinv : MonitorInv st)
    (hpos : ∀ q, inp.fetched = some q → 0 < q) :
    MonitorInv (checkPriceForPurchase userThreshold st inp).1 := by
  obtain ⟨hlow, hp⟩ := hinv
  cases hurl : st.purchase.productUrl with
  | none => simpa [checkPriceForPurchase, hurl, MonitorInv] using ⟨hlow, hp⟩
  | some u =>
    cases hf : inp.fetched with
    | none => simpa [checkPriceForPurchase, hurl, hf, MonitorInv] using ⟨hlow, hp⟩
    | some c =>
      have hc : 0 < c := hpos c hf
      have hp' : ∀ q ∈ st.priceHistory ++ [c], 0 < q := by
        intro q hq
        rcases List.mem_append.mp hq with hq | hq
        · exact hp q hq
        · simp at hq; simpa [hq] using hc
      unfold MonitorInv
      simp only [checkPriceForPurchase, hurl, hf]
      refine ⟨?_, hp'⟩
      rw [minQ_append_single]
      cases hm : minQ st.priceHistory with
      | none =>
        rw [hm] at hlow
        simp [hlow, jsFalsyQ]
      | some m =>
        rw [hm] at hlow
        have hmpos : 0 < m := minQ_pos st.priceHistory hp m hm
        by_cases hcm : c < m
        · simp [hlow, jsFalsyQ, jsNum, hmpos.ne', hcm, min_eq_right hcm.le]
        · simp [hlow, jsFalsyQ, jsNum, hmpos.ne', hcm,
            min_eq_left (le_of_not_lt hcm)]

theorem runChecks_preserves_inv (userThreshold : Option ℚ)
    (inputs : List PriceCheckInput) (st : MonitorState) (hinv : MonitorInv st)
    (hpos : ∀ i ∈ inputs, ∀ q, i.fetched = some q → 0 < q) :
    MonitorInv (runChecks userThreshold st inputs) := by
  induction inputs generalizing st with
  | nil => simpa [runChecks] using hinv
  | cons i rest ih =>
    have h1 : MonitorInv (checkPriceForPurchase userThreshold st i).1 :=
      checkPrice_preserves_inv userThreshold st i hinv
        (hpos i (by simp))
    have := ih (checkPriceForPurchase userThreshold st i).1 h1
      (fun j hj => hpos j (by simp [hj]))
    simpa [runChecks] using this

end PriceBot

namespace PriceBot

/-- A purchase under monitoring: bought at 100, still at 100, active
protection window, with a trackable product URL. -/
def monitorPurchase : Purchase :=
  { id := 11, userId := 7, productName := "Sample Widget", retailer := "Amazon"
    purchasePrice := 100, currentPrice := some 100
    lowestPrice := some 100, lowestPriceDate := some 0, purchaseDate := 0
    retailerOrderId := none, category := none
    protectionEnds := some 1000, creditCardId := some 2
    productUrl := some "https://www.example.com/item"
    sourceType := "MANUAL", sourceEmailId := none, status := .MONITORING }

/-- The state right after extraction seeds the purchase: one observation at
the purchase price, `lowestPrice` equal to it, no notifications yet. -/
def monitorSeed : MonitorState :=
  { purchase := monitorPurchase, priceHistory := [100], notificationCount := 0 }

/-- C4: starting from an extraction-seeded purchase (one observation at the
positive purchase price, `lowestPrice` equal to it), after any sequence of
price checks the stored `lowestPrice` equals the minimum of all recorded
observations; and a single check updates `lowestPrice`/`lowestPriceDate`
exactly when the newly observed price is strictly below the stored (positive)
lowest, leaving both unchanged otherwise. -/
theorem lowestPrice_is_min_of_observations (userThreshold : Option ℚ)
    (st0 : MonitorState) (p0 : ℚ) (h0 : 0 < p0)
    (hseedH : st0.priceHistory = [p0])
    (hseedL : st0.purchase.lowestPrice = some p0)
    (inputs : List PriceCheckInput)
    (hpos : ∀ i ∈ inputs, ∀ q, i.fetched = some q → 0 < q) :
    ((runChecks userThreshold st0 inputs).purchase.lowestPrice =
      minQ (runChecks userThreshold st0 inputs).priceHistory) ∧
    (∀ (st : MonitorState) (i : PriceCheckInput) (l c : ℚ) (u : String),
      st.purchase.lowestPrice = some l → 0 < l → i.fetched = some c →
      st.purchase.productUrl = some u →
      (c < l →
        (checkPriceForPurchase userThreshold st i).1.purchase.lowestPrice = some c ∧
        (checkPriceForPurchase userThreshold st i).1.purchase.lowestPriceDate =
          some i.now) ∧
      (l ≤ c →
        (checkPriceForPurchase userThreshold st i).1.purchase.lowestPrice = some l ∧
        (checkPriceForPurchase userThreshold st i).1.purchase.lowestPriceDate =
          st.purchase.lowestPriceDate)) := by
  constructor
  · have hinv : MonitorInv st0 := by
      refine ⟨?_, ?_⟩
      · rw [hseedL, hseedH]
        simp [minQ]
      · rw [hseedH]
        intro q hq
        simp at hq
        simpa [hq] using h0
    exact (runChecks_preserves_inv userThreshold inputs st0 hinv hpos).1
  · intro st i l c u hl hlpos hf hu
    constructor
    · intro hcl
      simp [checkPriceForPurchase, hu, hf, hl, jsFalsyQ, jsNum, hlpos.ne', hcl]
    · intro hlc
      simp [checkPriceForPurchase, hu, hf, hl, jsFalsyQ, jsNum, hlpos.ne',
        not_lt.mpr hlc]

/-- Witness for `lowestPrice_is_min_of_observations`: one check observing 80
on the seeded purchase (seed observation 100) yields
`lowestPrice = min {100, 80} = 80` with the new observation date. -/
theorem lowestPrice_is_min_of_observations_witness :
    ((runChecks (some 5) monitorSeed [{ fetched := some 80, now := 1 }]).purchase.lowestPrice =
      minQ (runChecks (some 5) monitorSeed [{ fetched := some 80, now := 1 }]).priceHistory) ∧
    ((checkPriceForPurchase (some 5) monitorSeed
        { fetched := some 80, now := 1 }).1.purchase.lowestPrice = some 80 ∧
     (checkPriceForPurchase (some 5) monitorSeed
        { fetched := some 80, now := 1 }).1.purchase.lowestPriceDate = some 1) := by
  have h := lowestPrice_is_min_of_observations (some 5) monitorSeed 100 (by norm_num)
    (by simp [monitorSeed]) (by simp [monitorSeed, monitorPurchase])
    [{ fetched := some 80, now := 1 }]
    (by
      intro i hi q hq
      simp at hi
      subst hi
      simp at hq
      subst hq
      norm_num)
  refine ⟨h.1, ?_⟩
  exact (h.2 monitorSeed { fetched := some 80, now := 1 } 100 80
      "https://www.example.com/item" (by simp [monitorSeed, monitorPurchase])
      (by norm_num) rfl (by simp [monitorSeed, monitorPurchase])).1 (by norm_num)

/-- C5: for a successful price fetch with positive effective threshold
(`user.priceDropThreshold || 5`), the purchase's status becomes
`CLAIM_ELIGIBLE` when the drop reaches the threshold inside the protection
window, `PRICE_DROP_DETECTED` when the drop reaches the threshold outside the
window, and is left unchanged when the drop is below the threshold. -/
theorem price_check_status_decision (userThreshold : Option ℚ)
    (st : MonitorState) (i : PriceCheckInput) (c : ℚ) (u : String)
    (hf : i.fetched = some c) (hu : st.purchase.productUrl = some u)
    (ht : 0 < jsOrQ userThreshold 5) :
    (jsOrQ userThreshold 5 ≤ st.purchase.purchasePrice - c →
      (withinProtection st.purchase.protectionEnds i.now = true →
        (checkPriceForPurchase userThreshold st i).1.purchase.status =
          .CLAIM_ELIGIBLE) ∧
      (withinProtection st.purchase.protectionEnds i.now = false →
        (checkPriceForPurchase userThreshold st i).1.purchase.status =
          .PRICE_DROP_DETECTED)) ∧
    (st.purchase.purchasePrice - c < jsOrQ userThreshold 5 →
      (checkPriceForPurchase userThreshold st i).1.purchase.status =
        st.purchase.status) := by
  constructor
  · intro hdrop
    have hpos : 0 < st.purchase.purchasePrice - c := lt_of_lt_of_le ht hdrop
    constructor
    · intro hwin
      simp [checkPriceForPurchase, hu, hf, hpos, hdrop, hwin]
    · intro hwin
      simp [checkPriceForPurchase, hu, hf, hpos, hdrop, hwin]
  · intro hdrop
    simp [checkPriceForPurchase, hu, hf, not_le.mpr hdrop]

/-- Witness for `price_check_status_decision`: observing 80 on the seeded
purchase (drop 20 ≥ threshold 5, window active) makes it `CLAIM_ELIGIBLE`. -/
theorem price_check_status_decision_witness :
    (checkPriceForPurchase (some 5) monitorSeed
      { fetched := some 80, now := 1 }).1.purchase.status =
        PurchaseStatus.CLAIM_ELIGIBLE :=
  ((price_check_status_decision (some 5) monitorSeed
      { fetched := some 80, now := 1 } 80 "https://www.example.com/item" rfl
      (by simp [monitorSeed, monitorPurchase]) (by norm_num [jsOrQ])).1
    (by simp [monitorSeed, monitorPurchase, jsOrQ]; norm_num)).1
    (by simp [monitorSeed, monitorPurchase, withinProtection])

end PriceBot

namespace PriceBot

/-- Two consecutive checks observing the same dropped price 80. -/
def priceDropCheckA : PriceCheckInput := { fetched := some 80, now := 1 }

def priceDropCheckB : PriceCheckInput := { fetched := some 80, now := 2 }

/-- C7 counterexample: `checkPriceForPurchase` creates a `PRICE_DROP`
notification on *every* qualifying check.  A second check whose observed
price (80) has not moved since the first still emits another notification
(count goes 0 → 1 → 2), contradicting "no notification is emitted again on a
later check whose observed price has not moved". -/
theorem price_check_renotifies_same_price :
    (checkPriceForPurchase (some 5) monitorSeed priceDropCheckA).1.notificationCount = 1 ∧
    (checkPriceForPurchase (some 5)
        (checkPriceForPurchase (some 5) monitorSeed priceDropCheckA).1
        priceDropCheckB).1.notificationCount = 2 := by
  constructor
  · norm_num [checkPriceForPurchase, monitorSeed, monitorPurchase,
      priceDropCheckA, jsFalsyQ, jsNum, jsOrQ, withinProtection]
  · norm_num [checkPriceForPurchase, monitorSeed, monitorPurchase,
      priceDropCheckA, priceDropCheckB, jsFalsyQ, jsNum, jsOrQ, withinProtection]

/-- C7 (amended): each price check that fetches a price emits exactly one
`PRICE_DROP` notification when the drop qualifies
(`0 < drop ∧ threshold ≤ drop`) and none otherwise — regardless of whether
the price moved since the previous check.  (In the batch sweep the purchase
leaves the swept status set once it becomes `CLAIM_ELIGIBLE`, but the check
itself never deduplicates.) -/
theorem notification_once_per_qualifying_check (userThreshold : Option ℚ)
    (st : MonitorState) (i : PriceCheckInput) (c : ℚ) (u : String)
    (hf : i.fetched = some c) (hu : st.purchase.productUrl = some u) :
    ((0 < st.purchase.purchasePrice - c ∧
        jsOrQ userThreshold 5 ≤ st.purchase.purchasePrice - c) →
      (checkPriceForPurchase userThreshold st i).1.notificationCount =
        st.notificationCount + 1) ∧
    (¬ (0 < st.purchase.purchasePrice - c ∧
        jsOrQ userThreshold 5 ≤ st.purchase.purchasePrice - c) →
      (checkPriceForPurchase userThreshold st i).1.notificationCount =
        st.notificationCount) := by
  constructor
  · intro hq
    simp [checkPriceForPurchase, hu, hf, hq.1, hq.2]
  · intro hq
    rcases not_and_or.mp hq with hq | hq
    · simp [checkPriceForPurchase, hu, hf, hq]
    · simp [checkPriceForPurchase, hu, hf, hq]

/-- Witness for `notification_once_per_qualifying_check`: the qualifying
check `priceDropCheckA` on the seeded purchase emits exactly one
notification. -/
theorem notification_once_per_qualifying_check_witness :
    (checkPriceForPurchase (some 5) monitorSeed priceDropCheckA).1.notificationCount =
      monitorSeed.notificationCount + 1 :=
  (notification_once_per_qualifying_check (some 5) monitorSeed priceDropCheckA
      80 "https://www.example.com/item" rfl
      (by simp [monitorSeed, monitorPurchase])).1
    (by constructor <;> norm_num [monitorSeed, monitorPurchase, jsOrQ])

end PriceBot

namespace PriceBot

/-! ## Card Matcher (`services/emailParser.js`, `matchCardToUser`)

`matchCardToUser(userId, cardLast4, body)` first looks the extracted last-4
up among the user's existing cards; on a miss it auto-provisions a new
`creditCard` row from the network/issuer hint that
`this.detectCardNetwork(body)` found in the message text (the ordered
`CARD_NETWORK_PATTERNS` regex scan; its result is passed in here as
`detectedNetwork`, with `none` meaning no pattern matched). -/

/-- The keys of `CARD_NETWORK_PATTERNS` / `DEFAULT_PROTECTION_DAYS`. -/
inductive NetworkKey
  | visa | mastercard | amex | discover | chase | citi | capitalone | wellsfargo
  deriving DecidableEq, Repr

/-- The explicit entries of `DEFAULT_PROTECTION_DAYS` (the `default: 90`
entry is applied separately by `getProtectionDays`); `wellsfargo` has no
entry. -/
def defaultProtectionDaysEntry : NetworkKey → Option Nat
  | .amex => some 90
  | .citi => some 60
  | .chase => some 90
  | .discover => some 90
  | .capitalone => some 60
  | .visa => some 90
  | .mastercard => some 60
  | .wellsfargo => none

/-- `getProtectionDays(network)`:
`DEFAULT_PROTECTION_DAYS[network] || DEFAULT_PROTECTION_DAYS.default`. -/
def getProtectionDays (network : Option NetworkKey) : Nat :=
  (network.bind defaultProtectionDaysEntry).getD 90

/-- The lowercase key string of a detected network. -/
def NetworkKey.keyString : NetworkKey → String
  | .visa => "visa"
  | .mastercard => "mastercard"
  | .amex => "amex"
  | .discover => "discover"
  | .chase => "chase"
  | .citi => "citi"
  | .capitalone => "capitalone"
  | .wellsfargo => "wellsfargo"

/-- `detectedNetwork.charAt(0).toUpperCase() + detectedNetwork.slice(1)`. -/
def NetworkKey.capitalized : NetworkKey → String
  | .visa => "Visa"
  | .mastercard => "Mastercard"
  | .amex => "Amex"
  | .discover => "Discover"
  | .chase => "Chase"
  | .citi => "Citi"
  | .capitalone => "Capitalone"
  | .wellsfargo => "Wellsfargo"

/-- The `network`/`issuer` pair `matchCardToUser` derives from the detected
hint: defaults `('unknown', 'Unknown')`; a card network maps to itself (with
`amex → 'American Express'`); a bank issuer keeps `network = 'unknown'` and
capitalizes (with the `capitalone`/`wellsfargo` spellings fixed up). -/
def networkIssuerFor (detectedNetwork : Option NetworkKey) : String × String :=
  match detectedNetwork with
  | none => ("unknown", "Unknown")
  | some k =>
    if k = .visa ∨ k = .mastercard ∨ k = .amex ∨ k = .discover then
      (k.keyString, if k = .amex then "American Express" else k.capitalized)
    else
      ("unknown",
        if k = .capitalone then "Capital One"
        else if k = .wellsfargo then "Wells Fargo"
        else k.capitalized)

/-- The `CardType` enum value from `networkToCardType`. -/
def cardTypeFor (detectedNetwork : Option NetworkKey) : String :=
  match detectedNetwork with
  | some .visa => "VISA"
  | some .mastercard => "MASTERCARD"
  | some .amex => "AMEX"
  | some .discover => "DISCOVER"
  | _ => "OTHER"

/-- The projection of a user's `creditCard` row that `matchCardToUser`
selects (`select: { id, lastFour, autoClaimEnabled, protectionDays, network,
issuer, nickname }`). -/
structure UserCardRow where
  id : Nat
  lastFour : String
  autoClaimEnabled : Bool
  protectionDays : Nat
  network : String
  issuer : String
  nickname : String
  deriving DecidableEq, Repr

/-- The exact `data` payload of the `prisma.creditCard.create` call in
`matchCardToUser`.  Note it contains **no** `maxClaimAmount` key: the
auto-provisioning path never sets a claim cap, leaving it to the database
default. -/
structure AutoCardData where
  userId : Nat
  lastFour : String
  network : String
  issuer : String
  nickname : String
  cardType : String
  protectionDays : Nat
  claimMethod : String
  autoClaimEnabled : Bool
  deriving DecidableEq, Repr

/-- The result of card matching: an existing row, or a freshly created one. -/
inductive CardMatch
  | existing (card : UserCardRow)
  | created (id : Nat) (card : AutoCardData)
  deriving DecidableEq, Repr

/-- `matchedCard.protectionDays`. -/
def CardMatch.protectionDays : CardMatch → Nat
  | .existing c => c.protectionDays
  | .created _ c => c.protectionDays

/-- `matchedCard.id`. -/
def CardMatch.cardId : CardMatch → Nat
  | .existing c => c.id
  | .created i _ => i

/-- `matchCardToUser(userId, cardLast4, body)` over the user's selected card
rows.  `detectedNetwork` is `this.detectCardNetwork(body)`; `persistOk`
models the `try`/`catch` around `prisma.creditCard.create` (on failure the
function logs and returns `null`, leaving the card table unchanged).
Returns the match result and the updated card table. -/
def matchCardToUser (userCards : List UserCardRow) (userId : Nat)
    (cardLast4 : Option String) (detectedNetwork : Option NetworkKey)
    (freshId : Nat) (persistOk : Bool) :
    Option CardMatch × List UserCardRow :=
  match cardLast4 with
  | none => (none, userCards)
  | some last4 =>
    match userCards.find? (fun card => card.lastFour == last4) with
    | some matchingCard => (some (.existing matchingCard), userCards)
    | none =>
      let protectionDays := getProtectionDays detectedNetwork
      let networkIssuer := networkIssuerFor detectedNetwork
      let newCard : AutoCardData :=
        { userId := userId
          lastFour := last4
          network := networkIssuer.1
          issuer := networkIssuer.2
          nickname := "Auto-detected Card (" ++ last4 ++ ")"
          cardType := cardTypeFor detectedNetwork
          protectionDays := protectionDays
          claimMethod := "EMAIL"
          autoClaimEnabled := true }
      if persistOk then
        (some (.created freshId newCard),
         userCards ++
           [{ id := freshId, lastFour := last4, autoClaimEnabled := true
              protectionDays := protectionDays, network := networkIssuer.1
              issuer := networkIssuer.2, nickname := newCard.nickname }])
      else
        (none, userCards)

/-- The card the matcher auto-provisions for last-4 "4242" when the hint
matches no known pattern. -/
def unknownHintCard : AutoCardData :=
  { userId := 7, lastFour := "4242", network := "unknown", issuer := "Unknown"
    nickname := "Auto-detected Card (4242)", cardType := "OTHER"
    protectionDays := 90, claimMethod := "EMAIL", autoClaimEnabled := true }

/-- C8 counterexample: with no matching instrument and an unrecognized hint,
the auto-provisioned card carries `protectionDays = 90` — the
`DEFAULT_PROTECTION_DAYS.default` fallback — not the claimed 60 days (and its
creation payload `AutoCardData` has no `maxClaimAmount` key at all, so no
$250 cap is set by this path). -/
theorem unknown_hint_card_not_60_days :
    (matchCardToUser [] 7 (some "4242") none 21 true).1 =
      some (.created 21 unknownHintCard) ∧
    unknownHintCard.protectionDays = 90 ∧
    ¬ unknownHintCard.protectionDays = 60 := by
  refine ⟨?_, by decide, by decide⟩
  decide

/-- C8 (amended): auto-provisioning on an unknown hint yields issuer
"Unknown", network "unknown", card type "OTHER", the 90-day
`DEFAULT_PROTECTION_DAYS.default` protection term, `claimMethod` EMAIL and
`autoClaimEnabled` left `true`; no `maxClaimAmount` is written (the payload
has no such key). -/
theorem unknown_hint_card_fields (userCards : List UserCardRow) (userId : Nat)
    (last4 : String) (freshId : Nat)
    (hmiss : userCards.find? (fun card => card.lastFour == last4) = none) :
    (matchCardToUser userCards userId (some last4) none freshId true).1 =
      some (.created freshId
        { userId := userId, lastFour := last4, network := "unknown"
          issuer := "Unknown"
          nickname := "Auto-detected Card (" ++ last4 ++ ")"
          cardType := "OTHER", protectionDays := 90, claimMethod := "EMAIL"
          autoClaimEnabled := true }) := by
  simp [matchCardToUser, hmiss, getProtectionDays, networkIssuerFor, cardTypeFor]

/-- Witness for `unknown_hint_card_fields` at an empty card table and
last-4 "1234". -/
theorem unknown_hint_card_fields_witness :
    (matchCardToUser [] 3 (some "1234") none 5 true).1 =
      some (.created 5
        { userId := 3, lastFour := "1234", network := "unknown"
          issuer := "Unknown", nickname := "Auto-detected Card (" ++ "1234" ++ ")"
          cardType := "OTHER", protectionDays := 90, claimMethod := "EMAIL"
          autoClaimEnabled := true }) :=
  unknown_hint_card_fields [] 3 "1234" 5 (by decide)

end PriceBot

namespace PriceBot

/-! ## Purchase Extractor (`services/emailParser.js` deterministic strategy,
and the AI strategy's `extractPurchaseWithAI`)

Both strategies guard against re-processing: a purchase whose
`sourceEmailId` already records the message id for this user short-circuits
the whole extraction (`findFirst({ where: { userId, sourceEmailId } })`). -/

/-- JS `x || y` on a nullable string: `null`/`undefined` and `''` are falsy. -/
def jsOrStr (x : Option String) (y : String) : String :=
  match x with
  | none => y
  | some s => if s = "" then y else s

/-- Character-list substring membership: the needle occurs as a contiguous
run somewhere in the haystack. -/
def charsInfix (needle : List Char) : List Char → Bool
  | [] => needle.isEmpty
  | c :: rest => needle.isPrefixOf (c :: rest) || charsInfix needle rest

/-- JS `haystack.includes(needle)`. -/
def containsSub (haystack needle : String) : Bool :=
  charsInfix needle.toList haystack.toList

/-- JS `s.charAt(0).toUpperCase() + s.slice(1)`. -/
def capitalizeStr (s : String) : String :=
  match s.toList with
  | [] => ""
  | c :: cs => String.mk (c.toUpper :: cs)

/-- One entry of `RETAILER_PATTERNS` (the price/order-id regexes live in
`BodyExtractors` below; every entry's price regex is the same
`/\$[\d,]+\.\d{2}/g`). -/
structure RetailerConfig where
  name : String
  fromPatterns : List String
  subjectPatterns : List String
  domain : String
  deriving DecidableEq, Repr

/-- `RETAILER_PATTERNS` from services/emailParser.js. -/
def RETAILER_PATTERNS : List RetailerConfig :=
  [ { name := "amazon"
      fromPatterns := ["auto-confirm@amazon.com", "shipment-tracking@amazon.com",
                       "digital-no-reply@amazon.com"]
      subjectPatterns := ["Your Amazon.com order", "Your order has shipped",
                          "Your Amazon order"]
      domain := "amazon.com" }
  , { name := "bestbuy"
      fromPatterns := ["BestBuyInfo@emailinfo.bestbuy.com", "noreply@bestbuy.com"]
      subjectPatterns := ["Your order has been received", "Order Confirmation",
                          "Thanks for your order"]
      domain := "bestbuy.com" }
  , { name := "walmart"
      fromPatterns := ["help@walmart.com", "orders@walmart.com"]
      subjectPatterns := ["Your Walmart.com order", "Order confirmation",
                          "Thanks for your order"]
      domain := "walmart.com" }
  , { name := "target"
      fromPatterns := ["orders@target.com", "noreply@target.com"]
      subjectPatterns := ["Your Target order", "Order confirmation",
                          "Thanks for shopping"]
      domain := "target.com" }
  , { name := "costco"
      fromPatterns := ["orders@costco.com", "noreply@costco.com"]
      subjectPatterns := ["Order Confirmation", "Your Costco.com order"]
      domain := "costco.com" }
  , { name := "newegg"
      fromPatterns := ["info@newegg.com", "orders@newegg.com"]
      subjectPatterns := ["Order Confirmation", "Your Newegg.com order"]
      domain := "newegg.com" }
  , { name := "homedepot"
      fromPatterns := ["reply@homedepot.com", "orders@homedepot.com"]
      subjectPatterns := ["Order Confirmation", "Your Home Depot order"]
      domain := "homedepot.com" }
  , { name := "lowes"
      fromPatterns := ["Lowes@e.lowes.com", "orders@lowes.com"]
      subjectPatterns := ["Order Confirmation", "Your Lowes order"]
      domain := "lowes.com" } ]

/-- A parsed inbound message as both strategies see it. -/
structure EmailMsg where
  fromAddress : String
  subject : String
  htmlBody : String
  textBody : String
  date : Int
  deriving DecidableEq, Repr

/-- The extraction slice of database state: the purchase table, the
append-only `priceHistory` rows `(purchaseId, price, source)`, and the count
of notifications created. -/
structure ExtractState where
  purchases : List Purchase
  priceHistoryRows : List (Nat × ℚ × String)
  notifications : Nat
  deriving DecidableEq, Repr

/-- The dedup lookup both strategies run:
`prisma.purchase.findFirst({ where: { userId, sourceEmailId: emailId } })`. -/
def findProcessed (purchases : List Purchase) (userId : Nat) (emailId : String) :
    Option Purchase :=
  purchases.find? (fun p => p.userId == userId && p.sourceEmailId == some emailId)

/-- One structured item the semantic extraction call returned. -/
structure AIItem where
  productName : String
  price : ℚ
  productUrl : Option String
  deriving DecidableEq, Repr

/-- The semantic extraction result (`parseEmailWithAI`), an external input. -/
structure AIResult where
  isPurchase : Bool
  items : List AIItem
  retailer : Option String
  orderId : Option String
  purchaseDate : Option Int
  category : Option String
  deriving DecidableEq, Repr

/-- `generatePriceCheckUrl(productName, retailer)` from aiParser.js;
`encodeURIComponent` is the browser escape function, passed in. -/
def generatePriceCheckUrl (encodeURIComponent : String → String)
    (productName : String) (retailer : Option String) : String :=
  "https://www.google.com/search?q=" ++
    encodeURIComponent (productName ++ " price " ++ retailer.getD "") ++
    "&tbm=shop"

/-- The per-item creation loop of `extractPurchaseWithAI`: skip items with an
empty product name or non-positive price; otherwise create the purchase row
(seeding `currentPrice`/`lowestPrice` at the item price), its initial
`priceHistory` row, and a notification. -/
def processAIItems (encodeURIComponent : String → String) (userId : Nat)
    (emailId : String) (aiResult : AIResult) (emailDate : Int) :
    List AIItem → ExtractState → Nat → ExtractState × List Purchase
  | [], st, _ => (st, [])
  | item :: rest, st, nextId =>
    if item.productName = "" ∨ item.price ≤ 0 then
      processAIItems encodeURIComponent userId emailId aiResult emailDate rest st nextId
    else
      let purchaseDate := aiResult.purchaseDate.getD emailDate
      let productUrl :=
        jsOrStr item.productUrl
          (generatePriceCheckUrl encodeURIComponent item.productName aiResult.retailer)
      let purchase : Purchase :=
        { id := nextId
          userId := userId
          productName := item.productName
          retailer := jsOrStr aiResult.retailer "Unknown"
          purchasePrice := item.price
          currentPrice := some item.price
          lowestPrice := some item.price
          lowestPriceDate := some purchaseDate
          purchaseDate := purchaseDate
          retailerOrderId := aiResult.orderId
          category := some (jsOrStr aiResult.category "other")
          protectionEnds := none
          creditCardId := none
          productUrl := some productUrl
          sourceType := "EMAIL"
          sourceEmailId := some emailId
          status := .MONITORING }
      let st' : ExtractState :=
        { purchases := st.purchases ++ [purchase]
          priceHistoryRows :=
            st.priceHistoryRows ++ [(nextId, item.price, jsOrStr aiResult.retailer "unknown")]
          notifications := st.notifications + 1 }
      let result := processAIItems encodeURIComponent userId emailId aiResult emailDate
        rest st' (nextId + 1)
      (result.1, purchase :: result.2)

/-- `extractPurchaseWithAI(emailData, userId, emailId)` — the AI strategy:
unconditional dedup check first, then the "not a purchase" verdict, then the
item loop; returns `null` when nothing was created. -/
def extractPurchaseWithAI (encodeURIComponent : String → String)
    (st : ExtractState) (userId : Nat) (emailId : String) (aiResult : AIResult)
    (emailDate : Int) (nextId : Nat) : ExtractState × Option (List Purchase) :=
  match findProcessed st.purchases userId emailId with
  | some _ => (st, none)
  | none =>
    if aiResult.isPurchase = false then (st, none)
    else
      let result := processAIItems encodeURIComponent userId emailId aiResult
        emailDate aiResult.items st nextId
      (result.1, if result.2 = [] then none else some result.2)

/-- The regular-expression helpers the deterministic extractor applies to the
message body (`extractCardLast4`, `extractProductName`, `extractProductUrl`,
`detectCardNetwork`, and the retailer price/order-id regex matches): pure
text functions whose results the embedded control flow consumes. -/
structure BodyExtractors where
  priceMatches : String → List ℚ
  orderIdMatch : String → Option String
  extractName : String → Option String
  cardLast4 : String → Option String
  productUrl : String → Option String
  detectNetwork : String → Option NetworkKey

/-- Sort extracted prices descending (`.sort((a, b) => b - a)`). -/
def sortDescQ (l : List ℚ) : List ℚ :=
  l.mergeSort (fun a b => decide (b ≤ a))

/-- `extractPurchaseFromEmail(parsedEmail, userId, emailId)` — the
deterministic strategy: identify the retailer by sender/subject patterns,
run the dedup check, extract prices (positive, below 10000, highest first),
resolve/auto-create the card via `matchCardToUser`, and create the purchase
row (seeded at the highest price) plus its initial `priceHistory` row and a
notification. -/
def extractPurchaseFromEmail (ext : BodyExtractors) (st : ExtractState)
    (userCards : List UserCardRow) (userId : Nat) (email : EmailMsg)
    (emailId : String) (freshPurchaseId freshCardId : Nat)
    (persistCardOk : Bool) : ExtractState × List UserCardRow × Option Purchase :=
  let fromAddress := email.fromAddress.toLower
  match RETAILER_PATTERNS.find? (fun config =>
      config.fromPatterns.any (fun pat => containsSub fromAddress pat.toLower) &&
      config.subjectPatterns.any (fun pat =>
        containsSub email.subject.toLower pat.toLower)) with
  | none => (st, userCards, none)
  | some config =>
    match findProcessed st.purchases userId emailId with
    | some _ => (st, userCards, none)
    | none =>
      let body := if email.htmlBody = "" then email.textBody else email.htmlBody
      let prices := sortDescQ ((ext.priceMatches body).filter
        (fun p => decide (0 < p) && decide (p < 10000)))
      match prices with
      | [] => (st, userCards, none)
      | topPrice :: _ =>
        let matched := matchCardToUser userCards userId (ext.cardLast4 body)
          (ext.detectNetwork body) freshCardId persistCardOk
        let protectionEnds :=
          match matched.1 with
          | none => none
          | some m =>
            if m.protectionDays = 0 then none
            else some (email.date + (m.protectionDays : Int))
        let purchase : Purchase :=
          { id := freshPurchaseId
            userId := userId
            productName :=
              jsOrStr (ext.extractName body) (capitalizeStr config.name ++ " Purchase")
            retailer := capitalizeStr config.name
            purchasePrice := topPrice
            currentPrice := some topPrice
            lowestPrice := some topPrice
            lowestPriceDate := some email.date
            purchaseDate := email.date
            retailerOrderId := ext.orderIdMatch body
            category := none
            protectionEnds := protectionEnds
            creditCardId := (matched.1).map CardMatch.cardId
            productUrl := ext.productUrl body
            sourceType := "EMAIL"
            sourceEmailId := some emailId
            status := .MONITORING }
        ({ purchases := st.purchases ++ [purchase]
           priceHistoryRows :=
             st.priceHistoryRows ++ [(freshPurchaseId, topPrice, config.name)]
           notifications := st.notifications + 1 },
         matched.2, some purchase)

end PriceBot

namespace PriceBot

/-- C3: extraction is idempotent.  If some TrackedPurchase of this user
already records this message id as its `sourceEmailId`, then re-processing
the message through either strategy returns `null` and leaves every piece of
state (purchase table, price history, notifications, card table) unchanged. -/
theorem extraction_idempotent (st : ExtractState) (userId : Nat)
    (emailId : String) (encodeURIComponent : String → String)
    (aiResult : AIResult) (emailDate : Int) (nextId : Nat)
    (ext : BodyExtractors) (userCards : List UserCardRow) (email : EmailMsg)
    (freshPurchaseId freshCardId : Nat) (persistCardOk : Bool)
    (hexists : ∃ p ∈ st.purchases, p.userId = userId ∧
      p.sourceEmailId = some emailId) :
    extractPurchaseWithAI encodeURIComponent st userId emailId aiResult
        emailDate nextId = (st, none) ∧
    extractPurchaseFromEmail ext st userCards userId email emailId
        freshPurchaseId freshCardId persistCardOk = (st, userCards, none) := by
  have hfound : (findProcessed st.purchases userId emailId).isSome := by
    obtain ⟨p, hp, h1, h2⟩ := hexists
    unfold findProcessed
    rw [List.find?_isSome]
    exact ⟨p, hp, by simp [h1, h2]⟩
  obtain ⟨q, hq⟩ := Option.isSome_iff_exists.mp hfound
  constructor
  · simp only [extractPurchaseWithAI]
    rw [hq]
  · simp only [extractPurchaseFromEmail]
    cases hr : RETAILER_PATTERNS.find? (fun config =>
        config.fromPatterns.any (fun pat =>
          containsSub email.fromAddress.toLower pat.toLower) &&
        config.subjectPatterns.any (fun pat =>
          containsSub email.subject.toLower pat.toLower)) with
    | none => rfl
    | some config => rw [hq]

/-- A purchase previously extracted from message `msg-1`. -/
def processedPurchase : Purchase :=
  { samplePurchase with sourceType := "EMAIL", sourceEmailId := some "msg-1" }

/-- Database state already holding `processedPurchase`. -/
def extractStateSample : ExtractState :=
  { purchases := [processedPurchase]
    priceHistoryRows := [(1, 100, "amazon")]
    notifications := 0 }

/-- Trivial text extractors (find nothing in the body). -/
def dummyExtractors : BodyExtractors :=
  { priceMatches := fun _ => []
    orderIdMatch := fun _ => none
    extractName := fun _ => none
    cardLast4 := fun _ => none
    productUrl := fun _ => none
    detectNetwork := fun _ => none }

/-- A semantic-extraction verdict claiming a purchase with no items. -/
def dummyAIResult : AIResult :=
  { isPurchase := true, items := [], retailer := none, orderId := none
    purchaseDate := none, category := none }

/-- An Amazon order-confirmation message. -/
def dummyEmail : EmailMsg :=
  { fromAddress := "auto-confirm@amazon.com"
    subject := "Your Amazon.com order has shipped"
    htmlBody := "", textBody := "", date := 0 }

/-- Witness for `extraction_idempotent`: re-processing message `msg-1`, which
`processedPurchase` already records, changes nothing under either strategy. -/
theorem extraction_idempotent_witness :
    extractPurchaseWithAI id extractStateSample 7 "msg-1" dummyAIResult 0 50 =
      (extractStateSample, none) ∧
    extractPurchaseFromEmail dummyExtractors extractStateSample [] 7 dummyEmail
        "msg-1" 50 51 true = (extractStateSample, [], none) :=
  extraction_idempotent extractStateSample 7 "msg-1" id dummyAIResult 0 50
    dummyExtractors [] dummyEmail 50 51 true
    ⟨processedPurchase, by simp [extractStateSample],
      by simp [processedPurchase, samplePurchase],
      by simp [processedPurchase, samplePurchase]⟩

end PriceBot

namespace PriceBot

/-! ## Auto-Filer channel cascades

The repository holds two distinct `autoFileClaim` implementations:

* the **portal-based** filer (`services/autoClaimFiler.js`, portal version):
  it tries the issuer's configured portal workflow (`CLAIM_PORTALS[issuer]`);
  when no portal is configured, when a required step fails
  (`stepSuccess = false`), or when the attempt throws, it falls back to its
  local `fileClaimViaEmail`, which delegates to `claimService.autoFileClaim` —
  a **single** email attempt through the claim service's nodemailer
  transporter (authenticated as `CLAIM_EMAIL_USER`/`EMAIL_USER`, the
  service's own identity, not the user's Gmail).  There is no second mail
  transport: if that send throws, the claim is marked `READY_TO_FILE`.

* the **Gmail-based** filer (`services/autoClaimFiler.js`, Gmail version):
  it never consults `CLAIM_PORTALS`; it always tries
  `sendClaimEmailViaGmail` (the user's own Gmail identity) first, and only
  when that throws — Gmail not connected, or the send erroring — falls back
  to `sendClaimEmailViaSendGrid`, the SendGrid service relay. -/

inductive Channel
  | portal | nodemailer | gmail | sendgrid
  deriving DecidableEq, Repr

/-- The channels the portal-based `autoFileClaim` attempts, in order
(`portalConfigured` = `CLAIM_PORTALS[issuer]` exists, `portalOk` = the
headless automation completed every step without throwing): the portal when
configured, then — only if the portal run was incomplete or threw — the one
nodemailer send inside `claimService.autoFileClaim`; with no portal
configured, that send directly. -/
def portalAutoFileAttempts (portalConfigured portalOk : Bool) : List Channel :=
  if portalConfigured then
    Channel.portal :: (if portalOk then [] else [Channel.nodemailer])
  else
    [Channel.nodemailer]

/-- The channels the Gmail-based `autoFileClaim` attempts, in order
(`gmailOk` = `sendClaimEmailViaGmail` returned; `false` covers both "Gmail
not connected" and a send error — either way it throws): Gmail always first,
SendGrid only in the `catch` of the Gmail attempt. -/
def gmailAutoFileAttempts (gmailOk : Bool) : List Channel :=
  Channel.gmail :: (if gmailOk then [] else [Channel.sendgrid])

/-- C6 counterexample: in the portal-based `autoFileClaim` — the only filer
that attempts a portal at all — a portal failure falls back to the single
nodemailer service-identity send; neither the user-Gmail channel nor the
SendGrid relay is ever attempted there, so "portal fails → Gmail attempted
before SendGrid" holds in no source function. -/
theorem portal_failure_no_gmail_no_sendgrid :
    portalAutoFileAttempts true false = [Channel.portal, Channel.nodemailer] ∧
    Channel.gmail ∉ portalAutoFileAttempts true false ∧
    Channel.sendgrid ∉ portalAutoFileAttempts true false := by
  decide

/-- C6 (amended): in the portal-based `autoFileClaim`, portal success
attempts no mail channel at all, and a portal failure is followed by exactly
one email attempt — the nodemailer service-identity send — with no secondary
channel.  The Gmail-before-SendGrid cascade lives only in the separate
Gmail-based `autoFileClaim`, which never attempts a portal: there the Gmail
(user-identity) channel is always attempted first, and the SendGrid relay is
attempted exactly when the Gmail attempt is unavailable or errors. -/
theorem channel_cascade_per_filer (portalOk gmailOk : Bool) :
    (portalOk = true →
      Channel.nodemailer ∉ portalAutoFileAttempts true portalOk ∧
      Channel.gmail ∉ portalAutoFileAttempts true portalOk ∧
      Channel.sendgrid ∉ portalAutoFileAttempts true portalOk) ∧
    (portalOk = false →
      portalAutoFileAttempts true portalOk =
        [Channel.portal, Channel.nodemailer]) ∧
    ((gmailAutoFileAttempts gmailOk).head? = some Channel.gmail ∧
      Channel.portal ∉ gmailAutoFileAttempts gmailOk ∧
      (Channel.sendgrid ∈ gmailAutoFileAttempts gmailOk ↔ gmailOk = false)) := by
  cases portalOk <;> cases gmailOk <;>
    simp [portalAutoFileAttempts, gmailAutoFileAttempts]

/-- Witness for `channel_cascade_per_filer`: with the portal run failing and
Gmail failing, the portal filer attempts portal then the nodemailer send,
and the Gmail filer attempts Gmail then SendGrid. -/
theorem channel_cascade_per_filer_witness :
    (portalAutoFileAttempts true false =
      [Channel.portal, Channel.nodemailer]) ∧
    ((gmailAutoFileAttempts false).head? = some Channel.gmail ∧
      Channel.portal ∉ gmailAutoFileAttempts false ∧
      (Channel.sendgrid ∈ gmailAutoFileAttempts false ↔ false = false)) :=
  ⟨(channel_cascade_per_filer false false).2.1 rfl,
   (channel_cascade_per_filer false false).2.2⟩

end PriceBot

namespace PriceBot

/-! ## Failure handling of the filing paths (claim C9)

Three cited failure handlers write the claim row when filing cannot
complete:

* the Gmail-based `autoFileClaim`'s outer `catch` sets
  `status: 'READY_TO_FILE'` (plus an ERROR history entry and notes);
* `autoClaimFiler.fileClaimViaEmail`'s `catch` sets
  `status: 'READY_TO_FILE'` (plus notes) when `claimService.autoFileClaim`
  throws, and `claimService.autoFileClaim` itself sets `READY_TO_FILE` when
  its email submission throws;
* `autoClaimService.fileClaimViaEmail`'s `catch` pushes an ERROR history
  entry and sets `responseNotes` — but does **not** write `status`, leaving
  whatever status the claim already had. -/

/-- The fields of a claim row these handlers touch.  `statusHistory` keeps
only each entry's `status` string. -/
structure ClaimRec where
  status : ClaimStatus
  statusHistory : List String
  responseNotes : Option String
  deriving DecidableEq, Repr

/-- The Gmail-based `autoFileClaim` (status effect): success of the whole
`try` block — the PDF generated and one of the two transports accepted the
message — yields `EMAIL_SENT`; any thrown error lands in the `catch`, which
records `READY_TO_FILE`. -/
def gmailAutoFileResult (c : ClaimRec) (pdfOk gmailOk sendgridOk : Bool)
    (errorMessage : String) : ClaimRec :=
  if pdfOk && (gmailOk || sendgridOk) then
    { c with status := .EMAIL_SENT
             statusHistory := c.statusHistory ++ ["EMAIL_SENT"] }
  else
    { c with status := .READY_TO_FILE
             statusHistory := c.statusHistory ++ ["ERROR"]
             responseNotes :=
               some ("Auto-filing failed: " ++ errorMessage ++ ". Please file manually.") }

/-- `claimService.autoFileClaim` (status effect): a documentation failure
propagates (claim row untouched); an email-submission failure is caught and
recorded as `READY_TO_FILE`; success is recorded as `FILED`.  Returns the
claim row, whether the call threw, and whether it succeeded. -/
def claimServiceAutoFile (c : ClaimRec) (docOk sendOk : Bool)
    (errorMessage : String) : ClaimRec × Bool × Bool :=
  if docOk = false then
    (c, true, false)
  else if sendOk = false then
    ({ c with status := .READY_TO_FILE
              responseNotes :=
                some ("Auto-submission failed: " ++ errorMessage ++ ". Please file manually.") },
     false, false)
  else
    ({ c with status := .FILED }, false, true)

/-- `autoClaimFiler.fileClaimViaEmail`: delegates to
`claimService.autoFileClaim` and, if that throws, marks the claim
`READY_TO_FILE` for manual filing. -/
def filerFileClaimViaEmail (c : ClaimRec) (docOk sendOk : Bool)
    (errorMessage : String) : ClaimRec :=
  let result := claimServiceAutoFile c docOk sendOk errorMessage
  if result.2.1 then
    { c with status := .READY_TO_FILE
             responseNotes :=
               some ("Auto-filing failed (both portal and email). Error: " ++
                 errorMessage ++ ". Please file manually.") }
  else
    result.1

/-- `autoClaimService.fileClaimViaEmail` (status effect): on success the row
becomes `EMAIL_SENT`; the `catch` pushes an ERROR history entry and sets
`responseNotes` but leaves `status` untouched. -/
def serviceFileClaimViaEmail (c : ClaimRec) (sendOk : Bool)
    (errorMessage : String) : ClaimRec :=
  if sendOk then
    { c with status := .EMAIL_SENT
             statusHistory := c.statusHistory ++ ["EMAIL_SENT"] }
  else
    { c with statusHistory := c.statusHistory ++ ["ERROR"]
             responseNotes := some ("Auto-file error: " ++ errorMessage) }

/-- A claim freshly created in DRAFT (as `createAndFileClaim` and
`processAutoClaimsForUser` hand to `fileClaimViaEmail`). -/
def draftClaimRec : ClaimRec :=
  { status := .DRAFT, statusHistory := ["DRAFT"], responseNotes := none }

/-- C9 counterexample: when `autoClaimService.fileClaimViaEmail` fails on a
DRAFT claim (e.g. SendGrid unconfigured), the stored status stays `DRAFT` —
not the claimed `READY_TO_FILE`. -/
theorem service_fileClaim_failure_keeps_draft :
    (serviceFileClaimViaEmail draftClaimRec false "SendGrid not configured").status =
      ClaimStatus.DRAFT ∧
    (serviceFileClaimViaEmail draftClaimRec false "SendGrid not configured").status ≠
      ClaimStatus.READY_TO_FILE := by
  decide

/-- C9 (amended): the two `autoClaimFiler` paths leave a claim that could not
be filed in `READY_TO_FILE`; `autoClaimService.fileClaimViaEmail`'s failure
path instead leaves the claim's previous status unchanged (recording the
failure only in `statusHistory`/`responseNotes`), so a DRAFT claim stays
DRAFT there. -/
theorem failed_filing_status (c : ClaimRec) (pdfOk gmailOk sendgridOk docOk
    sendOk : Bool) (msg : String) :
    ((pdfOk && (gmailOk || sendgridOk)) = false →
      (gmailAutoFileResult c pdfOk gmailOk sendgridOk msg).status =
        ClaimStatus.READY_TO_FILE) ∧
    ((docOk && sendOk) = false →
      (filerFileClaimViaEmail c docOk sendOk msg).status =
        ClaimStatus.READY_TO_FILE) ∧
    (sendOk = false →
      (serviceFileClaimViaEmail c sendOk msg).status = c.status) := by
  refine ⟨?_, ?_, ?_⟩
  · intro h
    simp [gmailAutoFileResult, h]
  · intro h
    cases docOk <;> cases sendOk <;>
      simp_all [filerFileClaimViaEmail, claimServiceAutoFile]
  · intro h
    simp [serviceFileClaimViaEmail, h]

/-- Witness for `failed_filing_status` on a DRAFT claim with every transport
failing: both filer paths land in `READY_TO_FILE`, the service path stays in
the prior (DRAFT) status. -/
theorem failed_filing_status_witness :
    (gmailAutoFileResult draftClaimRec true false false "send failed").status =
      ClaimStatus.READY_TO_FILE ∧
    (filerFileClaimViaEmail draftClaimRec false false "send failed").status =
      ClaimStatus.READY_TO_FILE ∧
    (serviceFileClaimViaEmail draftClaimRec false "send failed").status =
      draftClaimRec.status :=
  let h := failed_filing_status draftClaimRec true false false false false "send failed"
  ⟨h.1 (by decide), h.2.1 (by decide), h.2.2 (by decide)⟩

end PriceBot
